import Mathlib

/-!
Shallow embedding of the signal-confirmation engine of the Trading-Assistant
repository (src/App.py).

The engine works over a pandas DataFrame whose rows carry a timestamp, a
close price, and indicator columns that may hold NaN (the absent marker).
We model a row as a structure whose possibly-absent numeric fields are
`Option ℚ`: `none` is NaN.  A comparison between pandas scalars in which
either side is NaN evaluates to False; the helper comparison functions
below implement exactly that three-valued semantics.

`confirmation_bundle` (src/App.py lines 58-83) is modelled as a function
from a list of bars to `Option Verdict`: the Python function returns the
empty dict `\x7b\x7d` on an empty frame, which we render as `none`, and a
populated dict otherwise, rendered as `some` of a `Verdict` record.

`compute_indicators` (src/App.py lines 43-53) delegates the RSI and MACD
columns to the external pandas_ta library (out of scope per the spec), so
the model takes the per-row outputs of that library as oracle parameters;
the PSAR column is computed in the source itself as the close shifted by
one row, and is modelled faithfully.
-/

namespace TradingAssistant

/-- One row of the indicator DataFrame: timestamp, close price, and the
possibly-NaN indicator columns, with NaN rendered as `none`. -/
structure Bar where
  time : Int
  close : ℚ
  rsi : Option ℚ := none
  macd : Option ℚ := none
  macd_signal : Option ℚ := none
  macd_hist : Option ℚ := none
  psar : Option ℚ := none
deriving DecidableEq

/-- The dict returned by `confirmation_bundle` on a non-empty frame:
price, time, the four indicator values echoed present-or-absent
(`float(x) if pd.notna(x) else None`), and the two booleans. -/
structure Verdict where
  price : ℚ
  time : Int
  rsi : Option ℚ
  macd : Option ℚ
  macd_signal : Option ℚ
  macd_hist : Option ℚ
  psar : Option ℚ
  buy_ok : Bool
  sell_ok : Bool
deriving DecidableEq

/-- Comparison `a < b` between two possibly-NaN scalars: False whenever
either side is NaN, as in pandas/numpy. -/
def oLt (a b : Option ℚ) : Bool :=
  match a, b with
  | some x, some y => decide (x < y)
  | _, _ => false

/-- Comparison `a > b` between two possibly-NaN scalars: False whenever
either side is NaN. -/
def oGt (a b : Option ℚ) : Bool :=
  match a, b with
  | some x, some y => decide (x > y)
  | _, _ => false

/-- Comparison `a > b` where `a` is always present (the close price) and
`b` may be NaN: False when `b` is NaN. -/
def numGtO (a : ℚ) (b : Option ℚ) : Bool :=
  match b with
  | some y => decide (a > y)
  | none => false

/-- Comparison `a < b` where `a` is always present and `b` may be NaN. -/
def numLtO (a : ℚ) (b : Option ℚ) : Bool :=
  match b with
  | some y => decide (a < y)
  | none => false

/-- Source line 65: `macd_cross_up = (prev["macd"] < prev["macd_signal"])
and (latest["macd"] > latest["macd_signal"])`. -/
def macd_cross_up (prev latest : Bar) : Bool :=
  oLt prev.macd prev.macd_signal && oGt latest.macd latest.macd_signal

/-- Source line 66: `macd_cross_down = (prev["macd"] > prev["macd_signal"])
and (latest["macd"] < latest["macd_signal"])`. -/
def macd_cross_down (prev latest : Bar) : Bool :=
  oGt prev.macd prev.macd_signal && oLt latest.macd latest.macd_signal

/-- Source line 67: `price_above_psar = latest["close"] > latest["psar"]`. -/
def price_above_psar (latest : Bar) : Bool :=
  numGtO latest.close latest.psar

/-- Source line 68: `price_below_psar = latest["close"] < latest["psar"]`. -/
def price_below_psar (latest : Bar) : Bool :=
  numLtO latest.close latest.psar

/-- Source line 70: `buy_ok = (pd.notna(rsi) and rsi < 40) and
macd_cross_up and price_above_psar`. -/
def buy_ok (prev latest : Bar) : Bool :=
  (latest.rsi.isSome && oLt latest.rsi (some 40)) && macd_cross_up prev latest
    && price_above_psar latest

/-- Source line 71: `sell_ok = (pd.notna(rsi) and rsi > 60) and
macd_cross_down and price_below_psar`. -/
def sell_ok (prev latest : Bar) : Bool :=
  (latest.rsi.isSome && oGt latest.rsi (some 60)) && macd_cross_down prev latest
    && price_below_psar latest

/-- Source line 62: `prev = df.iloc[-2] if len(df) > 1 else latest`. -/
def prevOf (df : List Bar) (latest : Bar) : Bar :=
  if 1 < df.length then (df[df.length - 2]?).getD latest else latest

/-- Source lines 58-83, `confirmation_bundle`: on an empty frame return
the empty dict (`none`); otherwise build the verdict dict from the last
row and the second-to-last row (or the last row itself if there is only
one). -/
def confirmation_bundle (df : List Bar) : Option Verdict :=
  match df.getLast? with
  | none => none
  | some latest =>
    let prev := prevOf df latest
    some
      { price := latest.close
        time := latest.time
        rsi := latest.rsi
        macd := latest.macd
        macd_signal := latest.macd_signal
        macd_hist := latest.macd_hist
        psar := latest.psar
        buy_ok := buy_ok prev latest
        sell_ok := sell_ok prev latest }

/-- Input row of `compute_indicators`: the frame built by `fetch_klines`
has only a timestamp and a close price. -/
structure RawBar where
  time : Int
  close : ℚ
deriving DecidableEq

/-- Source lines 43-53, `compute_indicators`: an empty frame is returned
unchanged; otherwise the RSI/MACD columns are filled by the external
pandas_ta library — modelled as oracle parameters giving that library's
output at each row index — and the PSAR column is the close shifted down
by one row (`df["psar"] = df["close"].shift(1)`), so row 0 gets NaN and
row i gets the close of row i-1. -/
def compute_indicators (fRsi fMacd fMacds fMacdh : Nat → Option ℚ)
    (df : List RawBar) : List Bar :=
  if df.isEmpty then []
  else df.mapIdx fun i b =>
    { time := b.time
      close := b.close
      rsi := fRsi i
      macd := fMacd i
      macd_signal := fMacds i
      macd_hist := fMacdh i
      psar := if i = 0 then none else (df[i - 1]?).map RawBar.close }

/-! Helper lemmas characterising the NaN-aware comparisons. -/

theorem oLt_eq_true_iff (a b : Option ℚ) :
    oLt a b = true ↔ ∃ x y, a = some x ∧ b = some y ∧ x < y := by
  cases a <;> cases b <;> simp [oLt]

theorem oGt_eq_true_iff (a b : Option ℚ) :
    oGt a b = true ↔ ∃ x y, a = some x ∧ b = some y ∧ y < x := by
  cases a <;> cases b <;> simp [oGt]

theorem rsiLt40_iff (b : Bar) :
    ((b.rsi.isSome && oLt b.rsi (some 40)) = true) ↔ ∃ r, b.rsi = some r ∧ r < 40 := by
  cases hr : b.rsi <;> simp [oLt, hr]

theorem rsiGt60_iff (b : Bar) :
    ((b.rsi.isSome && oGt b.rsi (some 60)) = true) ↔ ∃ r, b.rsi = some r ∧ 60 < r := by
  cases hr : b.rsi <;> simp [oGt, hr]

theorem cross_up_iff (prev latest : Bar) :
    macd_cross_up prev latest = true ↔
      ∃ pm ps lm ls, prev.macd = some pm ∧ prev.macd_signal = some ps ∧
        latest.macd = some lm ∧ latest.macd_signal = some ls ∧ pm < ps ∧ ls < lm := by
  simp only [macd_cross_up, Bool.and_eq_true, oLt_eq_true_iff, oGt_eq_true_iff]
  constructor
  · rintro ⟨⟨pm, ps, h1, h2, h3⟩, ⟨lm, ls, h4, h5, h6⟩⟩
    exact ⟨pm, ps, lm, ls, h1, h2, h4, h5, h3, h6⟩
  · rintro ⟨pm, ps, lm, ls, h1, h2, h4, h5, h3, h6⟩
    exact ⟨⟨pm, ps, h1, h2, h3⟩, ⟨lm, ls, h4, h5, h6⟩⟩

theorem cross_down_iff (prev latest : Bar) :
    macd_cross_down prev latest = true ↔
      ∃ pm ps lm ls, prev.macd = some pm ∧ prev.macd_signal = some ps ∧
        latest.macd = some lm ∧ latest.macd_signal = some ls ∧ ps < pm ∧ lm < ls := by
  simp only [macd_cross_down, Bool.and_eq_true, oLt_eq_true_iff, oGt_eq_true_iff]
  constructor
  · rintro ⟨⟨pm, ps, h1, h2, h3⟩, ⟨lm, ls, h4, h5, h6⟩⟩
    exact ⟨pm, ps, lm, ls, h1, h2, h4, h5, h3, h6⟩
  · rintro ⟨pm, ps, lm, ls, h1, h2, h4, h5, h3, h6⟩
    exact ⟨⟨pm, ps, h1, h2, h3⟩, ⟨lm, ls, h4, h5, h6⟩⟩

theorem above_psar_iff (b : Bar) :
    price_above_psar b = true ↔ ∃ p, b.psar = some p ∧ p < b.close := by
  cases hp : b.psar <;> simp [price_above_psar, numGtO, hp]

theorem below_psar_iff (b : Bar) :
    price_below_psar b = true ↔ ∃ p, b.psar = some p ∧ b.close < p := by
  cases hp : b.psar <;> simp [price_below_psar, numLtO, hp]

/-- Spec 4.1 step 7, rendered literally from the spec text: buyConfirmed
iff latest.rsi present and below 40, a MACD cross up with all four values
present, and latest.close strictly above a present latest.psar. -/
def specBuyConfirmed (prev latest : Bar) : Prop :=
  (∃ r, latest.rsi = some r ∧ r < 40) ∧
  (∃ pm ps lm ls, prev.macd = some pm ∧ prev.macd_signal = some ps ∧
    latest.macd = some lm ∧ latest.macd_signal = some ls ∧ pm < ps ∧ ls < lm) ∧
  (∃ p, latest.psar = some p ∧ p < latest.close)

/-- Spec 4.1 step 8, rendered literally from the spec text: sellConfirmed
iff latest.rsi present and above 60, a MACD cross down with all four
values present, and latest.close strictly below a present latest.psar. -/
def specSellConfirmed (prev latest : Bar) : Prop :=
  (∃ r, latest.rsi = some r ∧ 60 < r) ∧
  (∃ pm ps lm ls, prev.macd = some pm ∧ prev.macd_signal = some ps ∧
    latest.macd = some lm ∧ latest.macd_signal = some ls ∧ ps < pm ∧ lm < ls) ∧
  (∃ p, latest.psar = some p ∧ latest.close < p)

theorem buy_ok_iff_spec (prev latest : Bar) :
    buy_ok prev latest = true ↔ specBuyConfirmed prev latest := by
  unfold buy_ok specBuyConfirmed
  rw [Bool.and_eq_true, Bool.and_eq_true, rsiLt40_iff, cross_up_iff, above_psar_iff,
    and_assoc]

theorem sell_ok_iff_spec (prev latest : Bar) :
    sell_ok prev latest = true ↔ specSellConfirmed prev latest := by
  unfold sell_ok specSellConfirmed
  rw [Bool.and_eq_true, Bool.and_eq_true, rsiGt60_iff, cross_down_iff, below_psar_iff,
    and_assoc]

/-- Unfolding of `confirmation_bundle` on a non-empty frame. -/
theorem confirmation_bundle_eq_some (df : List Bar) (latest : Bar)
    (h : df.getLast? = some latest) :
    confirmation_bundle df = some
      { price := latest.close
        time := latest.time
        rsi := latest.rsi
        macd := latest.macd
        macd_signal := latest.macd_signal
        macd_hist := latest.macd_hist
        psar := latest.psar
        buy_ok := buy_ok (prevOf df latest) latest
        sell_ok := sell_ok (prevOf df latest) latest } := by
  unfold confirmation_bundle
  rw [h]

/-- C1: on every non-empty series the verdict booleans agree exactly with
the spec formulas for buyConfirmed and sellConfirmed, with prev the
second-to-last bar (or the last bar itself for a length-1 series). -/
theorem C1_verdict_matches_spec (df : List Bar) (latest : Bar)
    (h : df.getLast? = some latest) :
    ∃ v, confirmation_bundle df = some v ∧
      (v.buy_ok = true ↔ specBuyConfirmed (prevOf df latest) latest) ∧
      (v.sell_ok = true ↔ specSellConfirmed (prevOf df latest) latest) :=
  ⟨_, confirmation_bundle_eq_some df latest h,
    buy_ok_iff_spec (prevOf df latest) latest,
    sell_ok_iff_spec (prevOf df latest) latest⟩

/-- Concrete two-bar series realising the spec scenario A: a MACD cross
up with RSI 35 and close above the PSAR proxy. -/
def barPrevA : Bar :=
  { time := 1, close := 99, macd := some (-1), macd_signal := some 0 }

/-- Latest bar of the scenario-A series. -/
def barLatestA : Bar :=
  { time := 2, close := 100, rsi := some 35, macd := some 1,
    macd_signal := some 0, psar := some 95 }

theorem C1_verdict_matches_spec_witness :
    ∃ v, confirmation_bundle [barPrevA, barLatestA] = some v ∧
      (v.buy_ok = true ↔ specBuyConfirmed (prevOf [barPrevA, barLatestA] barLatestA) barLatestA) ∧
      (v.sell_ok = true ↔ specSellConfirmed (prevOf [barPrevA, barLatestA] barLatestA) barLatestA) :=
  C1_verdict_matches_spec [barPrevA, barLatestA] barLatestA rfl

/-- Exclusivity at the level of the two booleans: the RSI thresholds
below 40 and above 60 cannot hold at once. -/
theorem buy_sell_exclusive (prev latest : Bar) :
    ¬(buy_ok prev latest = true ∧ sell_ok prev latest = true) := by
  rintro ⟨hb, hs⟩
  obtain ⟨⟨r, hr, hr40⟩, -, -⟩ := (buy_ok_iff_spec prev latest).mp hb
  obtain ⟨⟨s, hs', hs60⟩, -, -⟩ := (sell_ok_iff_spec prev latest).mp hs
  rw [hr] at hs'
  obtain rfl : r = s := Option.some_inj.mp hs'
  linarith

/-- C2: no evaluation produces a verdict with both booleans true. -/
theorem C2_never_both (df : List Bar) (v : Verdict)
    (h : confirmation_bundle df = some v) :
    ¬(v.buy_ok = true ∧ v.sell_ok = true) := by
  cases hl : df.getLast? with
  | none =>
    unfold confirmation_bundle at h
    rw [hl] at h
    exact absurd h (by simp)
  | some latest =>
    rw [confirmation_bundle_eq_some df latest hl] at h
    obtain rfl : _ = v := Option.some_inj.mp h
    exact buy_sell_exclusive (prevOf df latest) latest

theorem C2_never_both_witness :
    ¬((Verdict.mk 100 2 (some 35) (some 1) (some 0) none (some 95) true false).buy_ok = true ∧
      (Verdict.mk 100 2 (some 35) (some 1) (some 0) none (some 95) true false).sell_ok = true) :=
  C2_never_both [barPrevA, barLatestA]
    (Verdict.mk 100 2 (some 35) (some 1) (some 0) none (some 95) true false) (by decide)

/-- C3: the empty dict is returned exactly on the empty frame, and it is
returned, not raised: `confirmation_bundle` is a total function into
`Option Verdict`. -/
theorem C3_empty_iff_none (df : List Bar) :
    confirmation_bundle df = none ↔ df = [] := by
  cases hl : df.getLast? with
  | none =>
    unfold confirmation_bundle
    rw [hl]
    simpa using List.getLast?_eq_none_iff.mp hl
  | some latest =>
    have hne : df ≠ [] := by
      intro e
      rw [e] at hl
      simp at hl
    unfold confirmation_bundle
    rw [hl]
    simp [hne]

/-- C4: on a non-empty series whose latest RSI is absent, both booleans
are false whatever the other fields hold. -/
theorem C4_absent_rsi (df : List Bar) (latest : Bar)
    (h : df.getLast? = some latest) (hr : latest.rsi = none) :
    ∃ v, confirmation_bundle df = some v ∧ v.buy_ok = false ∧ v.sell_ok = false :=
  ⟨_, confirmation_bundle_eq_some df latest h,
    by simp [buy_ok, hr], by simp [sell_ok, hr]⟩

/-- Two-bar series whose latest bar has every indicator column absent. -/
def barNoRsi : Bar := { time := 4, close := 101 }

theorem C4_absent_rsi_witness :
    ∃ v, confirmation_bundle [barPrevA, barNoRsi] = some v ∧
      v.buy_ok = false ∧ v.sell_ok = false :=
  C4_absent_rsi [barPrevA, barNoRsi] barNoRsi rfl rfl

/-- C5: evaluation is total on non-empty series whatever subset of
indicator values is absent, an absent value never satisfies an inequality
comparison, and each absent input short-circuits its condition to false:
an absent MACD value on either bar kills both crossovers, an absent PSAR
kills both price/PSAR comparisons, and an absent RSI kills both
confirmations. -/
theorem C5_total_and_absent_short_circuits :
    (∀ df : List Bar, df ≠ [] → ∃ v, confirmation_bundle df = some v) ∧
    (∀ a : Option ℚ,
      oLt none a = false ∧ oLt a none = false ∧ oGt none a = false ∧ oGt a none = false) ∧
    (∀ prev latest : Bar,
      prev.macd = none ∨ prev.macd_signal = none ∨
        latest.macd = none ∨ latest.macd_signal = none →
      macd_cross_up prev latest = false ∧ macd_cross_down prev latest = false) ∧
    (∀ latest : Bar, latest.psar = none →
      price_above_psar latest = false ∧ price_below_psar latest = false) ∧
    (∀ prev latest : Bar, latest.rsi = none →
      buy_ok prev latest = false ∧ sell_ok prev latest = false) := by
  refine ⟨?_, ?_, ?_, ?_, ?_⟩
  · intro df hne
    obtain ⟨latest, hl⟩ := Option.isSome_iff_exists.mp (List.getLast?_isSome.mpr hne)
    exact ⟨_, confirmation_bundle_eq_some df latest hl⟩
  · intro a
    cases a <;> simp [oLt, oGt]
  · intro prev latest h
    rcases h with h | h | h | h <;>
      simp [macd_cross_up, macd_cross_down, oLt, oGt, h]
  · intro latest h
    simp [price_above_psar, price_below_psar, numGtO, numLtO, h]
  · intro prev latest h
    simp [buy_ok, sell_ok, h]

theorem C5_total_and_absent_short_circuits_witness :
    ∃ v, confirmation_bundle [barNoRsi] = some v :=
  C5_total_and_absent_short_circuits.1 [barNoRsi] (by simp)

/-- C6: on every length-1 series prev coincides with latest, both MACD
crossovers are trivially false, and so are both booleans. -/
theorem C6_singleton_no_signal (b : Bar) :
    ∃ v, confirmation_bundle [b] = some v ∧ v.buy_ok = false ∧ v.sell_ok = false ∧
      macd_cross_up b b = false ∧ macd_cross_down b b = false := by
  have hcu : macd_cross_up b b = false := by
    cases hm : b.macd <;> cases hs : b.macd_signal <;>
      simp [macd_cross_up, oLt, oGt, hm, hs]
    intro h
    exact le_of_lt h
  have hcd : macd_cross_down b b = false := by
    cases hm : b.macd <;> cases hs : b.macd_signal <;>
      simp [macd_cross_down, oLt, oGt, hm, hs]
    intro h
    exact le_of_lt h
  refine ⟨_, confirmation_bundle_eq_some [b] b rfl, ?_, ?_, hcu, hcd⟩
  · have : prevOf [b] b = b := by simp [prevOf]
    simp [buy_ok, this, hcu]
  · have : prevOf [b] b = b := by simp [prevOf]
    simp [sell_ok, this, hcd]

/-- C7: the verdict echoes exactly the latest bar's data: its timestamp,
its close, the four indicator values present-or-absent, and the two
booleans computed from prev and latest. -/
theorem C7_verdict_echoes_latest (df : List Bar) (latest : Bar)
    (h : df.getLast? = some latest) :
    ∃ v, confirmation_bundle df = some v ∧
      v.price = latest.close ∧ v.time = latest.time ∧ v.rsi = latest.rsi ∧
      v.macd = latest.macd ∧ v.macd_signal = latest.macd_signal ∧
      v.macd_hist = latest.macd_hist ∧ v.psar = latest.psar ∧
      v.buy_ok = buy_ok (prevOf df latest) latest ∧
      v.sell_ok = sell_ok (prevOf df latest) latest :=
  ⟨_, confirmation_bundle_eq_some df latest h,
    rfl, rfl, rfl, rfl, rfl, rfl, rfl, rfl, rfl⟩

theorem C7_verdict_echoes_latest_witness :
    ∃ v, confirmation_bundle [barPrevA, barNoRsi] = some v ∧
      v.price = barNoRsi.close ∧ v.time = barNoRsi.time ∧ v.rsi = barNoRsi.rsi ∧
      v.macd = barNoRsi.macd ∧ v.macd_signal = barNoRsi.macd_signal ∧
      v.macd_hist = barNoRsi.macd_hist ∧ v.psar = barNoRsi.psar ∧
      v.buy_ok = buy_ok (prevOf [barPrevA, barNoRsi] barNoRsi) barNoRsi ∧
      v.sell_ok = sell_ok (prevOf [barPrevA, barNoRsi] barNoRsi) barNoRsi :=
  C7_verdict_echoes_latest [barPrevA, barNoRsi] barNoRsi rfl

/-- C8: the engine is a pure function of the series it is given: the
model reads no state besides its argument (the source body touches no
global and performs no IO), so equal inputs give equal verdicts. -/
theorem C8_deterministic (df1 df2 : List Bar) (h : df1 = df2) :
    confirmation_bundle df1 = confirmation_bundle df2 := by
  rw [h]

theorem C8_deterministic_witness :
    confirmation_bundle [barPrevA, barLatestA] = confirmation_bundle [barPrevA, barLatestA] :=
  C8_deterministic [barPrevA, barLatestA] [barPrevA, barLatestA] rfl

/-- State-passing rendering of `confirmation_bundle` for the frame
property: the source body (src/App.py lines 58-83) performs only reads of
the frame — iloc row selection and column indexing — and contains no
assignment to it, so the post-state of the frame is the frame the call
received, returned here alongside the result. -/
def confirmation_bundle_run (df : List Bar) : Option Verdict × List Bar :=
  (confirmation_bundle df, df)

/-- C9: after any call the series is exactly what it was before the call:
the engine mutates nothing. -/
theorem C9_input_unchanged (df : List Bar) :
    (confirmation_bundle_run df).2 = df := rfl

/-- Row-level reading of `compute_indicators` on a non-empty frame: row i
keeps the raw time and close, takes the library oracles at index i, and
gets as PSAR the close of row i-1 (absent at row 0). -/
theorem compute_indicators_getElem (fRsi fMacd fMacds fMacdh : Nat → Option ℚ)
    (df : List RawBar) (hne : df ≠ []) (i : Nat) (b : RawBar)
    (hb : df[i]? = some b) :
    (compute_indicators fRsi fMacd fMacds fMacdh df)[i]? = some
      { time := b.time
        close := b.close
        rsi := fRsi i
        macd := fMacd i
        macd_signal := fMacds i
        macd_hist := fMacdh i
        psar := if i = 0 then none else (df[i - 1]?).map RawBar.close } := by
  unfold compute_indicators
  rw [if_neg (by simpa using hne)]
  rw [List.getElem?_mapIdx, hb]
  rfl

/-- C10: the PSAR column written by `compute_indicators` is the previous
close, so on any series of at least two bars the price/PSAR conditions of
the verdict compare the last close against the second-to-last close, and
on a one-bar series the latest PSAR is absent and both conditions are
false. -/
theorem C10_psar_is_prev_close (fRsi fMacd fMacds fMacdh : Nat → Option ℚ)
    (df : List RawBar) :
    (∀ lastB prevB latest, 2 ≤ df.length →
      df[df.length - 1]? = some lastB → df[df.length - 2]? = some prevB →
      (compute_indicators fRsi fMacd fMacds fMacdh df).getLast? = some latest →
      latest.close = lastB.close ∧ latest.psar = some prevB.close ∧
      price_above_psar latest = decide (prevB.close < lastB.close) ∧
      price_below_psar latest = decide (lastB.close < prevB.close)) ∧
    (∀ lastB latest, df.length = 1 → df[0]? = some lastB →
      (compute_indicators fRsi fMacd fMacds fMacdh df).getLast? = some latest →
      latest.psar = none ∧
      price_above_psar latest = false ∧ price_below_psar latest = false) := by
  constructor
  · intro lastB prevB latest h2 hlast hprev hgl
    have hne : df ≠ [] := by
      intro e
      rw [e] at h2
      simp at h2
    have hrow := compute_indicators_getElem fRsi fMacd fMacds fMacdh df hne
      (df.length - 1) lastB hlast
    rw [List.getLast?_eq_getElem?] at hgl
    have hlen : (compute_indicators fRsi fMacd fMacds fMacdh df).length = df.length := by
      unfold compute_indicators
      rw [if_neg (by simpa using hne)]
      exact List.length_mapIdx
    rw [hlen, hrow] at hgl
    obtain rfl : _ = latest := Option.some_inj.mp hgl
    have hi0 : df.length - 1 ≠ 0 := by omega
    have hi1 : df.length - 1 - 1 = df.length - 2 := by omega
    refine ⟨rfl, ?_, ?_, ?_⟩
    · simp only [if_neg hi0, hi1, hprev, Option.map_some']
    · simp only [price_above_psar, if_neg hi0, hi1, hprev, Option.map_some', numGtO]
    · simp only [price_below_psar, if_neg hi0, hi1, hprev, Option.map_some', numLtO]
  · intro lastB latest h1 hlast hgl
    have hne : df ≠ [] := by
      intro e
      rw [e] at h1
      simp at h1
    have hrow := compute_indicators_getElem fRsi fMacd fMacds fMacdh df hne 0 lastB hlast
    rw [List.getLast?_eq_getElem?] at hgl
    have hlen : (compute_indicators fRsi fMacd fMacds fMacdh df).length = df.length := by
      unfold compute_indicators
      rw [if_neg (by simpa using hne)]
      exact List.length_mapIdx
    rw [hlen, h1] at hgl
    rw [show (1 : Nat) - 1 = 0 from rfl] at hgl
    rw [hrow] at hgl
    obtain rfl : _ = latest := Option.some_inj.mp hgl
    exact ⟨rfl, rfl, rfl⟩

/-- Two-bar raw series for the C10 witness. -/
def rawA : RawBar := { time := 1, close := 10 }

/-- Second bar of the raw series. -/
def rawB : RawBar := { time := 2, close := 12 }

theorem C10_psar_is_prev_close_witness :
    ({ time := 2, close := 12, psar := some 10 } : Bar).close = rawB.close ∧
      ({ time := 2, close := 12, psar := some 10 } : Bar).psar = some rawA.close ∧
      price_above_psar { time := 2, close := 12, psar := some 10 } =
        decide (rawA.close < rawB.close) ∧
      price_below_psar { time := 2, close := 12, psar := some 10 } =
        decide (rawB.close < rawA.close) :=
  (C10_psar_is_prev_close (fun _ => none) (fun _ => none) (fun _ => none) (fun _ => none)
    [rawA, rawB]).1 rawB rawA { time := 2, close := 12, psar := some 10 }
    (by decide) rfl rfl (by decide)

end TradingAssistant
